import Mathlib

/-!
Verification of the trip-planning workflow orchestrator of the `trip-ai`
repository against its natural-language specification.

The TypeScript sources are shallowly embedded: JavaScript `Date` values are
epoch milliseconds (`Int`), JavaScript numbers are rationals (`ℚ`), fallible
code returns `Except`, and every external collaborator (geocoding, POI
discovery, routing, transportation mode, lodging search) is an oracle
parameter supplied to the embedded step functions.  Promise settlement for
the timeout wrapper of `executeTripPlanner` is modelled by an explicit
outcome type carrying settle times.
-/

namespace TripAi

/-- JavaScript `Math.round` on a rational: round half toward positive
infinity, `⌊q + 1/2⌋`. -/
def jsRound (q : ℚ) : Int := ⌊q + 1/2⌋

/-- JavaScript `%` on numbers, for the nonnegative operands used by the
formatters: `a - b * ⌊a / b⌋`. -/
def jsMod (a b : ℚ) : ℚ := a - b * ⌊a / b⌋

/-- JavaScript `Number.prototype.toFixed(1)` for the nonnegative values the
code formats: one decimal digit, ties rounded up. -/
def fixed1 (q : ℚ) : String :=
  let d := jsRound (q * 10)
  toString (d.ediv 10) ++ "." ++ toString (d.emod 10)

/-- Embeds `formatDistance` from `src/lib/services/google-maps.ts`
(lines 446-451): meters under 1000 render rounded with an ` m` suffix,
otherwise one-decimal kilometers with a ` km` suffix. -/
def formatDistance (meters : ℚ) : String :=
  if meters < 1000 then toString (jsRound meters) ++ " m"
  else fixed1 (meters / 1000) ++ " km"

/-- Embeds `formatDuration` from `src/lib/services/google-maps.ts`
(lines 456-469): seconds under 60 as `N seconds`, under 3600 as rounded
`N minutes`, otherwise `Hh Mm` with the minutes omitted when they round to
zero and `hour` pluralized for more than one hour. -/
def formatDuration (seconds : ℚ) : String :=
  if seconds < 60 then toString (jsRound seconds) ++ " seconds"
  else if seconds < 3600 then toString (jsRound (seconds / 60)) ++ " minutes"
  else
    let hours : Int := ⌊seconds / 3600⌋
    let minutes : Int := jsRound (jsMod seconds 3600 / 60)
    if minutes = 0 then
      toString hours ++ " hour" ++ (if 1 < hours then "s" else "")
    else toString hours ++ "h " ++ toString minutes ++ "m"

/-- JavaScript `Math.ceil(a / b)` for integer millisecond arithmetic with a
positive divisor, as used for `daysCount` and `numDays`. -/
def ceilDiv (a b : Int) : Int := -((-a).fdiv b)

/-- JavaScript `String.prototype.trim()`: drop leading and trailing
whitespace characters. -/
def jsTrim (s : String) : String :=
  String.mk (((s.data.dropWhile Char.isWhitespace).reverse.dropWhile
    Char.isWhitespace).reverse)

/-- Left-pad a natural number's decimal representation to `width` digits. -/
def padNum (width : Nat) (n : Int) : String :=
  let s := toString n.toNat
  String.mk (List.replicate (width - s.length) '0') ++ s

/-- Embeds `Date.prototype.toISOString().split("T")[0]`: UTC calendar date
of an epoch-millisecond timestamp, via the standard civil-from-days
conversion. -/
def msToIsoDate (ms : Int) : String :=
  let z := ms.fdiv 86400000 + 719468
  let era := z.fdiv 146097
  let doe := z - era * 146097
  let yoe := (doe - doe.fdiv 1460 + doe.fdiv 36524 - doe.fdiv 146096).fdiv 365
  let doy := doe - (365 * yoe + yoe.fdiv 4 - yoe.fdiv 100)
  let mp := (5 * doy + 2).fdiv 153
  let d := doy - (153 * mp + 2).fdiv 5 + 1
  let m := mp + (if mp < 10 then 3 else -9)
  let y := yoe + era * 400 + (if m ≤ 2 then 1 else 0)
  padNum 4 y ++ "-" ++ padNum 2 m ++ "-" ++ padNum 2 d

/-- The transportation modes of the Zod schema in
`src/lib/nodes/transportation-mode.ts`. -/
inductive TransportMode where
  | plane | train | bus | car | ferry | combination
deriving DecidableEq, Repr

/-- A latitude/longitude pair, as produced by geocoding. -/
structure Coord where
  lat : ℚ
  lng : ℚ
deriving DecidableEq, Repr

/-- `POI` from `src/lib/types.ts`. -/
structure POI where
  name : String
  description : String
  lat : ℚ
  lng : ℚ
  category : String
deriving DecidableEq, Repr

/-- The coordinate pair of a POI, as passed to the routing collaborator. -/
def POI.coord (p : POI) : Coord := ⟨p.lat, p.lng⟩

/-- `DayPOI` from `src/lib/types.ts`. -/
structure DayPOI extends POI where
  timeWindow : String
  duration : Nat
  travelTimeFromPrevious : Nat
deriving DecidableEq, Repr

/-- `DaySchedule` from `src/lib/types.ts`. -/
structure DaySchedule where
  day : Nat
  date : String
  pois : List DayPOI
  totalDuration : String
deriving DecidableEq, Repr

/-- `RouteSegment` from `src/lib/types.ts`. -/
structure RouteSegment where
  startLocation : String
  endLocation : String
  distance : String
  duration : String
deriving DecidableEq, Repr

/-- One entry of `RouteData.routes` from `src/lib/types.ts`. -/
structure RouteDay where
  day : Nat
  legs : List RouteSegment
deriving DecidableEq, Repr

/-- `RouteData` from `src/lib/types.ts`. -/
structure RouteData where
  totalDistance : String
  totalDuration : String
  routes : List RouteDay
deriving DecidableEq, Repr

/-- `AirbnbListing` from `src/lib/types.ts`. -/
structure AirbnbListing where
  id : String
  name : String
  price : String
  pricePerNight : String
  link : String
  location : Coord
  distanceToRoute : String
  rating : Option ℚ := none
  reviewCount : Option Nat := none
  image : Option String := none
deriving DecidableEq, Repr

/-- The thrown JavaScript error values distinguished by the orchestrator and
its caller: `ValidationError`, `TimeoutError` (which carries a `timeout`
field), `GoogleMapsError`, and the base `Error` class
(`src/lib/types.ts`, error classes section). -/
inductive JsError where
  | validation (message : String)
  | timeoutError (message : String) (timeout : Nat)
  | googleMaps (message : String)
  | plain (message : String)
deriving DecidableEq, Repr

/-- The `message` property of a thrown error value. -/
def JsError.message : JsError → String
  | .validation m => m
  | .timeoutError m _ => m
  | .googleMaps m => m
  | .plain m => m

/-- `TripPlannerState` derived from `TripPlannerStateAnnotation` in
`src/lib/types.ts`.  `Date` fields are epoch milliseconds; the two date
inputs are `Option` because `validateInput` explicitly guards against their
absence at runtime. -/
structure TripState where
  destination : String
  origin : Option String := none
  startDate : Option Int
  endDate : Option Int
  budgetUsd : ℚ
  daysCount : Int := 1
  destinationCoordinates : Option Coord := none
  originCoordinates : Option Coord := none
  transportationMode : Option TransportMode := none
  pointsOfInterest : List POI := []
  dailyItinerary : List DaySchedule := []
  routeInformation : Option RouteData := none
  airbnbRecommendations : List AirbnbListing := []
  errors : List String := []
  startTime : Int := 0
  endTime : Option Int := none
deriving DecidableEq, Repr

/-- A single step's returned channel update.  A `none` field means the
channel keeps its value (for the coordinate, mode, list and route channels
the annotation reducers are `(x, y) => y ?? x`); the `errors` field is the
list the step returned for the `errors` channel, which the annotation
reducer `(x, y) => x.concat(y ?? [])` appends.  Channels that a step's
spread returns unchanged are modelled as absent. -/
structure NodeUpdate where
  daysCount : Option Int := none
  destinationCoordinates : Option Coord := none
  originCoordinates : Option Coord := none
  transportationMode : Option TransportMode := none
  pointsOfInterest : Option (List POI) := none
  dailyItinerary : Option (List DaySchedule) := none
  routeInformation : Option RouteData := none
  airbnbRecommendations : Option (List AirbnbListing) := none
  errors : List String := []
deriving DecidableEq, Repr

/-- Merge one step's returned update into the state, field by field, with
the reducers of `TripPlannerStateAnnotation` (`src/lib/types.ts`,
lines 75-114): last-write-wins per channel and concatenation for
`errors`. -/
def applyUpdate (s : TripState) (u : NodeUpdate) : TripState :=
  { s with
    daysCount := u.daysCount.getD s.daysCount
    destinationCoordinates :=
      u.destinationCoordinates.orElse fun _ => s.destinationCoordinates
    originCoordinates := u.originCoordinates.orElse fun _ => s.originCoordinates
    transportationMode := u.transportationMode.orElse fun _ => s.transportationMode
    pointsOfInterest := u.pointsOfInterest.getD s.pointsOfInterest
    dailyItinerary := u.dailyItinerary.getD s.dailyItinerary
    routeInformation := u.routeInformation.orElse fun _ => s.routeInformation
    airbnbRecommendations := u.airbnbRecommendations.getD s.airbnbRecommendations
    errors := s.errors ++ u.errors }

/-- The clock values `validateInput` obtains from `new Date()`:
`startOfToday` is today's midnight (`now.setHours(0,0,0,0)`) and
`nowPlusTwoYears` is the current instant with the calendar year advanced by
two (`maxDate.setFullYear(maxDate.getFullYear() + 2)`). -/
structure Clock where
  now : Int
  startOfToday : Int
  nowPlusTwoYears : Int
deriving DecidableEq, Repr

/-- The list of violated validation rules collected by `validateInput` in
`src/lib/nodes/input-validation.ts` (lines 15-69), in source order. -/
def validationViolations (clock : Clock) (s : TripState) : List String :=
  (if jsTrim s.destination = "" then ["Destination is required"]
   else if 255 < s.destination.length then
     ["Destination must be 255 characters or less"]
   else [])
  ++ (if s.startDate.isNone then ["Start date is required"] else [])
  ++ (if s.endDate.isNone then ["End date is required"] else [])
  ++ (match s.startDate, s.endDate with
      | some a, some b =>
        (if b < a then ["Start date must be before end date"] else [])
        ++ (if a < clock.startOfToday then ["Start date must be in the future"]
            else [])
        ++ (if clock.nowPlusTwoYears < a then ["Start date must be within 2 years"]
            else [])
      | _, _ => [])
  ++ (if s.budgetUsd ≤ 0 then ["Budget must be greater than 0"]
      else if (1000000 : ℚ) < s.budgetUsd then
        ["Budget must be less than $1,000,000"]
      else [])
  ++ (match s.startDate, s.endDate with
      | some a, some b =>
        let d := ceilDiv (b - a) 86400000
        (if d < 1 then ["Trip must be at least 1 day"] else [])
        ++ (if 365 < d then ["Trip must be less than 365 days"] else [])
      | _, _ => [])

/-- The `daysCount` computed by `validateInput`: declared `1`, overwritten
with `Math.ceil((endDate - startDate) / 86400000)` when both dates are
present. -/
def daysCountCalc (s : TripState) : Int :=
  match s.startDate, s.endDate with
  | some a, some b => ceilDiv (b - a) 86400000
  | _, _ => 1

/-- Embeds `validateInput` from `src/lib/nodes/input-validation.ts`: throws
`ValidationError` with the semicolon-joined violations when any rule fails,
otherwise returns the state update carrying the derived `daysCount`. -/
def validateInput (clock : Clock) (s : TripState) : Except JsError NodeUpdate :=
  let errs := validationViolations clock s
  if errs = [] then .ok { daysCount := some (daysCountCalc s) }
  else .error (.validation ("Input validation failed: " ++ String.intercalate "; " errs))

/-- A lodging search request as sent to the `airbnb_search` MCP tool by
`searchAirbnb` (`src/lib/services/airbnb-mcp.ts`, lines 157-178). -/
structure LodgingQuery where
  location : String
  checkin : String
  checkout : String
  maxPrice : Int
  minPrice : Int
deriving DecidableEq, Repr

/-- The external collaborators consumed by the workflow nodes, as oracles.
A `.error` result models the collaborator call throwing; the carried string
is the thrown error's message. -/
structure Env where
  geocode : String → Except String Coord
  discoverPois : String → Except String (List POI)
  transportMode : Coord → Coord → Except String TransportMode
  searchLodging : LodgingQuery → Except String (List AirbnbListing)

/-- Embeds `geocodeLocations` from `src/lib/nodes/geocoding.ts`: geocode the
destination (failure is recorded and the step returns at once), then the
origin when supplied and non-blank (failure is recorded but the destination
coordinates are kept).  The second component counts geocoding-collaborator
calls. -/
def geocodeLocations (env : Env) (s : TripState) : NodeUpdate × Nat :=
  match env.geocode s.destination with
  | .error e =>
    ({ errors := s.errors ++
        ["Failed to geocode destination \x22" ++ s.destination ++ "\x22: " ++ e] }, 1)
  | .ok c =>
    match s.origin with
    | some o =>
      if jsTrim o = "" then ({ destinationCoordinates := some c }, 1)
      else
        match env.geocode o with
        | .error e =>
          ({ destinationCoordinates := some c
             errors := s.errors ++
               ["Failed to geocode origin \x22" ++ o ++ "\x22: " ++ e ++
                ". Continuing without origin coordinates."] }, 2)
        | .ok c2 =>
          ({ destinationCoordinates := some c, originCoordinates := some c2 }, 2)
    | none => ({ destinationCoordinates := some c }, 1)

/-- Embeds `discoverInterestPoints` from `src/lib/nodes/interest-points.ts`:
a thrown collaborator error or an empty POI list is recorded as a
`POI Discovery failed` entry; otherwise the POIs are stored.  The second
component counts POI-collaborator calls. -/
def discoverInterestPoints (env : Env) (s : TripState) : NodeUpdate × Nat :=
  match env.discoverPois s.destination with
  | .error e => ({ errors := s.errors ++ ["POI Discovery failed: " ++ e] }, 1)
  | .ok [] =>
    ({ errors := s.errors ++
        ["POI Discovery failed: No points of interest found for destination"] }, 1)
  | .ok pois => ({ pointsOfInterest := some pois }, 1)

/-- Embeds `determineTransportationMode` from
`src/lib/nodes/transportation-mode.ts` (lines 51-111): an empty update when
either coordinate pair is missing (the collaborator is not called), the
returned mode on success, and an error entry on collaborator failure.  The
haversine distance included in the collaborator prompt is a function of the
two coordinate pairs, so the oracle receives the pairs themselves.  The
second component counts transport-collaborator calls. -/
def determineTransportationMode (env : Env) (s : TripState) : NodeUpdate × Nat :=
  match s.originCoordinates, s.destinationCoordinates with
  | some oc, some dc =>
    (match env.transportMode oc dc with
     | .ok m => ({ transportationMode := some m }, 1)
     | .error e =>
       ({ errors := ["Transportation mode determination failed: " ++ e] }, 1))
  | _, _ => ({}, 0)

/-- Embeds `routeAfterGeocoding` from `src/lib/langgraph-agent.ts`: route to
the transportation-mode node exactly when both coordinate pairs are present,
otherwise to `END`. -/
def routeAfterGeocoding (s : TripState) : Bool :=
  s.originCoordinates.isSome && s.destinationCoordinates.isSome

/-- The arguments `searchAirbnb` (`src/lib/services/airbnb-mcp.ts`,
lines 157-178) passes to the lodging collaborator:
`maxPrice = Math.floor(budget / numNights)` and `minPrice = 0`. -/
def searchAirbnbQuery (destination checkin checkout : String) (budget : ℚ)
    (numNights : Int) : LodgingQuery :=
  { location := destination
    checkin := checkin
    checkout := checkout
    maxPrice := ⌊budget / (numNights : ℚ)⌋
    minPrice := 0 }

/-- Embeds `searchAccommodation` from `src/lib/nodes/accommodation.ts`
together with `searchAirbnb`: format the check-in/out dates, query the
lodging collaborator with the derived price band, store the top 10 listings,
and record a non-fatal error on failure (including the `TypeError` thrown
when a date is absent).  The second component lists the queries the
collaborator received. -/
def searchAccommodation (env : Env) (s : TripState) : NodeUpdate × List LodgingQuery :=
  match s.startDate, s.endDate with
  | some sd, some ed =>
    let q := searchAirbnbQuery s.destination (msToIsoDate sd) (msToIsoDate ed)
      s.budgetUsd s.daysCount
    (match env.searchLodging q with
     | .ok listings => ({ airbnbRecommendations := some (listings.take 10) }, [q])
     | .error e =>
       ({ errors := s.errors ++ ["Accommodation search failed: " ++ e] }, [q]))
  | _, _ =>
    ({ errors := s.errors ++
        ["Accommodation search failed: Cannot read properties of undefined (reading \x27toISOString\x27)"] },
     [])

/-- The per-leg result of the routing collaborator, as parsed by `getRoute`
in `src/lib/services/google-maps.ts`. -/
structure RouteInfo where
  distance : String
  distanceValue : ℚ
  duration : String
  durationValue : ℚ
deriving DecidableEq, Repr

/-- The routing collaborators consumed by the route-planning step:
`getRoute` models the MCP route lookup for one leg (`.error` is a thrown
call), and `straightLineMeters` models `calculateDistance`, the haversine
straight-line distance in meters, kept abstract because it computes with
transcendental functions; no claim under verification depends on its
values. -/
structure RouteEnv where
  getRoute : Coord → Coord → Except String RouteInfo
  straightLineMeters : Coord → Coord → ℚ

/-- Accumulator for one day's leg loop in `planDailyRoutes`. -/
structure LegAcc where
  legs : List RouteSegment
  dist : ℚ
  dur : ℚ
deriving DecidableEq, Repr

/-- The thrown `TypeError` message when the leg loop of `planDailyRoutes`
dereferences the `undefined` POI past the end of the day's list. -/
def phantomLegMessage : String :=
  "Cannot read properties of undefined (reading \x27lat\x27)"

/-- The leg loop of `planDailyRoutes` (`src/lib/services/google-maps.ts`,
lines 114-151): `for (let i = 0; i <= dayPois.length - 1; i++)` over
`start = dayPois[i]`, `end = dayPois[i + 1]`.  A failed collaborator call is
degraded to a straight-line estimate for that leg; when `dayPois[i + 1]` is
`undefined` (the final iteration), both the call and the fallback throw a
`TypeError`, which aborts the loop. -/
def processLegs (env : RouteEnv) (dayPois : List POI) : Except JsError LegAcc :=
  (List.range dayPois.length).foldl
    (fun acc i => do
      let a ← acc
      match dayPois[i]?, dayPois[i + 1]? with
      | some start, some next =>
        match env.getRoute start.coord next.coord with
        | .ok r =>
          pure ⟨a.legs ++ [⟨start.name, next.name, r.distance, r.duration⟩],
            a.dist + r.distanceValue, a.dur + r.durationValue⟩
        | .error _ =>
          let d := env.straightLineMeters start.coord next.coord
          pure ⟨a.legs ++ [⟨start.name, next.name,
              fixed1 (d / 1000) ++ " km", toString ⌈d / 60⌉ ++ " mins"⟩],
            a.dist + d * 1000, a.dur + d * 60⟩
      | _, _ => .error (.googleMaps ("Route planning failed: " ++ phantomLegMessage)))
    (pure ⟨[], 0, 0⟩)

/-- Accumulator for the day loop of `planDailyRoutes`. -/
structure DayAcc where
  routes : List RouteDay
  dist : ℚ
  dur : ℚ
deriving DecidableEq, Repr

/-- Embeds `planDailyRoutes` from `src/lib/services/google-maps.ts`
(lines 72-184): spread the POIs evenly over `numDays`, run the leg loop for
each non-empty day, and aggregate formatted totals.  The local
`dailyItinerary` the source builds and never returns is omitted as
unobservable.  A `TypeError` escaping the leg loop is rethrown by the outer
catch as a `GoogleMapsError` prefixed `Route planning failed: `. -/
def planDailyRoutes (env : RouteEnv) (pois : List POI)
    (startDate endDate : Option Int) : Except JsError RouteData :=
  match startDate, endDate with
  | some sd, some ed => do
    let numDays := ceilDiv (ed - sd) 86400000
    let ppd := ceilDiv (pois.length : Int) numDays
    let acc ← (List.range numDays.toNat).foldl
      (fun acc day0 => do
        let a ← acc
        let day : Nat := day0 + 1
        let startIdx := ((day : Int) - 1) * ppd
        let endIdx := min ((day : Int) * ppd) (pois.length : Int)
        let dayPois := (pois.drop startIdx.toNat).take (endIdx - startIdx).toNat
        if dayPois.isEmpty then pure a
        else do
          let la ← processLegs env dayPois
          pure (⟨a.routes ++ (if la.legs.isEmpty then [] else [⟨day, la.legs⟩]),
            a.dist + la.dist, a.dur + la.dur⟩ : DayAcc))
      (pure (⟨[], 0, 0⟩ : DayAcc))
    pure ⟨formatDistance acc.dist, formatDuration acc.dur, acc.routes⟩
  | _, _ =>
    .error (.googleMaps
      ("Route planning failed: Cannot read properties of undefined (reading \x27getTime\x27)"))

/-- The daily-itinerary `reduce` of `planRoutes`
(`src/lib/nodes/route-planning.ts`, lines 27-63): bucket POIs by
`Math.floor(idx / Math.ceil(length / daysCount))`, date each bucket
`startDate + dayIndex` days, window each POI by its global index, then label
each day's total duration.  Absent `startDate` reproduces the thrown
`TypeError`. -/
def buildItinerary (pois : List POI) (daysCount : Int)
    (startDate : Option Int) : Except String (List DaySchedule) :=
  match startDate with
  | none => .error "Cannot read properties of undefined (reading \x27getTime\x27)"
  | some sd =>
    let ppd := ceilDiv (pois.length : Int) daysCount
    let bucket : Nat → Nat := fun idx => if ppd ≤ 0 then 0 else idx / ppd.toNat
    let numBuckets := if pois.isEmpty then 0 else bucket (pois.length - 1) + 1
    .ok <| (List.range numBuckets).map fun b =>
      let dayPois := (pois.enum.filter fun p => bucket p.1 = b).map fun p =>
        { toPOI := p.2
          timeWindow := toString (9 + p.1 % 5 * 2) ++ ":00-" ++
            toString (11 + p.1 % 5 * 2) ++ ":00"
          duration := 120
          travelTimeFromPrevious := if p.1 % 5 = 0 then 0 else 30 }
      { day := b + 1
        date := msToIsoDate (sd + (b : Int) * 86400000)
        pois := dayPois
        totalDuration := toString (dayPois.length * 2) ++ " hours" }

/-- Embeds `planRoutes` from `src/lib/nodes/route-planning.ts`: throws (and
catches) `No POIs available for route planning` when the POI list is empty,
otherwise asks `planDailyRoutes` for route data and builds its own daily
itinerary; any caught error is recorded as a `Route planning failed: `
entry with the state otherwise unchanged. -/
def planRoutes (env : RouteEnv) (s : TripState) : NodeUpdate :=
  if s.pointsOfInterest = [] then
    { errors := s.errors ++ ["Route planning failed: No POIs available for route planning"] }
  else
    match planDailyRoutes env s.pointsOfInterest s.startDate s.endDate with
    | .error e => { errors := s.errors ++ ["Route planning failed: " ++ e.message] }
    | .ok routeData =>
      match buildItinerary s.pointsOfInterest s.daysCount s.startDate with
      | .error msg => { errors := s.errors ++ ["Route planning failed: " ++ msg] }
      | .ok iti =>
        { dailyItinerary := some iti, routeInformation := some routeData }

/-- The user-supplied input of `executeTripPlanner`
(`Omit<TripPlannerState, "errors" | "startTime" | "endTime">`). -/
structure PlannerInput where
  destination : String
  origin : Option String := none
  startDate : Option Int
  endDate : Option Int
  budgetUsd : ℚ
  daysCount : Int := 1
  destinationCoordinates : Option Coord := none
  originCoordinates : Option Coord := none
  transportationMode : Option TransportMode := none
  pointsOfInterest : List POI := []
  dailyItinerary : List DaySchedule := []
  routeInformation : Option RouteData := none
  airbnbRecommendations : List AirbnbListing := []
deriving DecidableEq, Repr

/-- The initial state `executeTripPlanner` builds from its input: the input
fields plus `errors: []`, `startTime: new Date()`, `endTime: undefined`. -/
def initState (clock : Clock) (i : PlannerInput) : TripState :=
  { destination := i.destination
    origin := i.origin
    startDate := i.startDate
    endDate := i.endDate
    budgetUsd := i.budgetUsd
    daysCount := i.daysCount
    destinationCoordinates := i.destinationCoordinates
    originCoordinates := i.originCoordinates
    transportationMode := i.transportationMode
    pointsOfInterest := i.pointsOfInterest
    dailyItinerary := i.dailyItinerary
    routeInformation := i.routeInformation
    airbnbRecommendations := i.airbnbRecommendations
    errors := []
    startTime := clock.now
    endTime := none }

/-- Collaborator call counts of one graph invocation. -/
structure Calls where
  geocode : Nat := 0
  poi : Nat := 0
  transport : Nat := 0
  lodging : Nat := 0
deriving DecidableEq, Repr

/-- No collaborator was called. -/
def noCalls : Calls := {}

/-- Embeds one invocation of the compiled graph of `createTripPlannerGraph`
(`src/lib/langgraph-agent.ts`, lines 42-85): validation first (its thrown
`ValidationError` rejects the invocation before any other node runs), then
the geocoding, POI-discovery and accommodation nodes on the validated state
with their updates merged by the annotation reducers, then the conditional
transportation-mode node when `routeAfterGeocoding` routes to it.  Also
returns the collaborator call counts of the run. -/
def invokeGraph (clock : Clock) (env : Env) (input : PlannerInput) :
    Except JsError TripState × Calls :=
  let s0 := initState clock input
  match validateInput clock s0 with
  | .error e => (.error e, noCalls)
  | .ok vUpd =>
    let s1 := applyUpdate s0 vUpd
    let g := geocodeLocations env s1
    let p := discoverInterestPoints env s1
    let a := searchAccommodation env s1
    let s2 := applyUpdate (applyUpdate (applyUpdate s1 g.1) p.1) a.1
    if routeAfterGeocoding s2 then
      let t := determineTransportationMode env s2
      (.ok (applyUpdate s2 t.1),
        { geocode := g.2, poi := p.2, transport := t.2, lodging := a.2.length })
    else
      (.ok s2,
        { geocode := g.2, poi := p.2, transport := 0, lodging := a.2.length })

instance {ε α : Type} [DecidableEq ε] [DecidableEq α] :
    DecidableEq (Except ε α) := fun a b =>
  match a, b with
  | .ok x, .ok y => decidable_of_iff (x = y) (by simp)
  | .error x, .error y => decidable_of_iff (x = y) (by simp)
  | .ok _, .error _ => isFalse (by simp)
  | .error _, .ok _ => isFalse (by simp)

/-- The temporal behavior of one `graph.invoke(initialState)` promise: it
either settles (fulfills or rejects) after a given number of milliseconds,
or never settles. -/
inductive GraphBehavior where
  | settles (ms : Nat) (r : Except JsError TripState)
  | hangs
deriving DecidableEq, Repr

/-- The observable outcome of the promise `executeTripPlanner` returns: it
resolves at a time, rejects at a time, or stays pending forever. -/
inductive PromiseOutcome where
  | resolvedAt (ms : Nat) (s : TripState)
  | rejectedAt (ms : Nat) (e : JsError)
  | pending
deriving DecidableEq, Repr

/-- Direct `await graph.invoke(initialState)`: the caller observes exactly
the graph promise. -/
def awaitGraph : GraphBehavior → PromiseOutcome
  | .settles ms (.ok s) => .resolvedAt ms s
  | .settles ms (.error e) => .rejectedAt ms e
  | .hangs => .pending

/-- Embeds the timeout wrapper of `executeTripPlanner`
(`src/lib/langgraph-agent.ts`, lines 103-132).  `if (timeout)` is JavaScript
truthiness, so `0` and an omitted argument both take the direct-await
branch.  In the truthy branch the wrapper promise rejects with a plain
`Error` when the timer fires first; the graph promise has no rejection
handler there, so a graph rejection never settles the wrapper, which then
rejects through the timer at `t`. -/
def executeTripPlanner (g : GraphBehavior) (timeout : Option Nat) : PromiseOutcome :=
  match timeout with
  | none => awaitGraph g
  | some 0 => awaitGraph g
  | some t =>
    match g with
    | .settles ms (.ok s) =>
      if ms < t then .resolvedAt ms s
      else .rejectedAt t (.plain ("Trip planning timeout after " ++ toString t ++ "ms"))
    | .settles _ (.error _) =>
      .rejectedAt t (.plain ("Trip planning timeout after " ++ toString t ++ "ms"))
    | .hangs =>
      .rejectedAt t (.plain ("Trip planning timeout after " ++ toString t ++ "ms"))

/-- `executeTripPlanner` applied to an actual graph invocation that settles
after `ms` milliseconds with the result of `invokeGraph`. -/
def executeTripPlannerOn (clock : Clock) (env : Env) (input : PlannerInput)
    (ms : Nat) (timeout : Option Nat) : PromiseOutcome :=
  executeTripPlanner (.settles ms (invokeGraph clock env input).1) timeout

/-- Whether an outcome is a rejection carrying a `TimeoutError` instance. -/
def isTimeoutErrorOutcome : PromiseOutcome → Bool
  | .rejectedAt _ (.timeoutError _ _) => true
  | _ => false

/-! ### Concrete fixtures used by witnesses and counterexamples -/

/-- A fixed clock: now is 1000 ms past a midnight taken as the epoch, and
the two-year bound is far in the future. -/
def clock0 : Clock := { now := 1000, startOfToday := 0, nowPlusTwoYears := 63200000000 }

/-- Oracles that model every collaborator call throwing. -/
def envStub : Env :=
  { geocode := fun _ => .error "unavailable"
    discoverPois := fun _ => .error "unavailable"
    transportMode := fun _ _ => .error "unavailable"
    searchLodging := fun _ => .error "unavailable" }

/-- Routing oracles: the route lookup throws and the straight-line estimate
is zero; no theorem depends on these values. -/
def renvStub : RouteEnv :=
  { getRoute := fun _ _ => .error "unavailable"
    straightLineMeters := fun _ _ => 0 }

/-- A malformed planner input: blank destination, missing start date,
non-positive budget. -/
def inputBad : PlannerInput :=
  { destination := "", startDate := none, endDate := some 604800000, budgetUsd := 0 }

/-- A well-formed planner input without an origin: Paris for a week within
the allowed window, budget 2000. -/
def inputC7 : PlannerInput :=
  { destination := "Paris, France", startDate := some 0, endDate := some 604800000
    budgetUsd := 2000 }

/-- A validated state whose POI discovery produced nothing. -/
def stateEmptyPois : TripState :=
  { destination := "Paris, France", startDate := some 0, endDate := some 604800000
    budgetUsd := 2000, daysCount := 7 }

/-- A validated one-day state holding a single point of interest. -/
def poiA : POI :=
  { name := "Louvre", description := "Famous museum", lat := 48, lng := 2
    category := "culture" }

/-- The one-POI, one-day state fed to the route-planning step. -/
def stateC4 : TripState :=
  { destination := "Paris, France", startDate := some 0, endDate := some 86400000
    budgetUsd := 2000, daysCount := 1, pointsOfInterest := [poiA] }

/-- A validated state with budget 1000 and ten days, for the accommodation
price ceiling. -/
def stateC6 : TripState :=
  { destination := "Paris, France", startDate := some 0, endDate := some 864000000
    budgetUsd := 1000, daysCount := 10 }

/-! ### Helper lemmas -/

theorem validateInput_ok_shape {clock : Clock} {s : TripState} {u : NodeUpdate}
    (h : validateInput clock s = .ok u) :
    u = { daysCount := some (daysCountCalc s) } ∧ validationViolations clock s = [] := by
  unfold validateInput at h
  by_cases hv : validationViolations clock s = []
  · simp only [hv, if_true, reduceIte, Except.ok.injEq] at h
    exact ⟨h.symm, hv⟩
  · simp [hv] at h

theorem applyUpdate_transportationMode {s : TripState} {u : NodeUpdate}
    (h : u.transportationMode = none) :
    (applyUpdate s u).transportationMode = s.transportationMode := by
  simp [applyUpdate, h, Option.orElse]

theorem applyUpdate_originCoordinates {s : TripState} {u : NodeUpdate}
    (h : u.originCoordinates = none) :
    (applyUpdate s u).originCoordinates = s.originCoordinates := by
  simp [applyUpdate, h, Option.orElse]

theorem applyUpdate_destinationCoordinates {s : TripState} {u : NodeUpdate}
    (h : u.destinationCoordinates = none) :
    (applyUpdate s u).destinationCoordinates = s.destinationCoordinates := by
  simp [applyUpdate, h, Option.orElse]

theorem geocodeLocations_transportationMode (env : Env) (s : TripState) :
    ((geocodeLocations env s).1).transportationMode = none := by
  unfold geocodeLocations
  repeat' split
  all_goals rfl

theorem discoverInterestPoints_transportationMode (env : Env) (s : TripState) :
    ((discoverInterestPoints env s).1).transportationMode = none := by
  unfold discoverInterestPoints
  repeat' split
  all_goals rfl

theorem searchAccommodation_transportationMode (env : Env) (s : TripState) :
    ((searchAccommodation env s).1).transportationMode = none := by
  unfold searchAccommodation
  split
  · dsimp only
    split <;> rfl
  · rfl

theorem determineTransportationMode_coords (env : Env) (s : TripState) :
    ((determineTransportationMode env s).1).originCoordinates = none ∧
    ((determineTransportationMode env s).1).destinationCoordinates = none := by
  unfold determineTransportationMode
  repeat' split
  all_goals exact ⟨rfl, rfl⟩

/-! ### Claim theorems -/

/-- Claim C2 (code_bug evidence). The orchestrator applies no default
timeout: with the argument omitted and a graph that never settles, the
returned promise stays pending forever instead of rejecting after 60000 ms.
With an explicit timeout of 50 ms it rejects with a plain `Error` whose
message embeds the value, and no invocation of `executeTripPlanner` ever
rejects with a `TimeoutError` instance carrying a `timeout` field, although
`src/lib/types.ts` defines one and the API route matches on it. -/
theorem c2_timeout_never_timeout_error :
    executeTripPlanner .hangs none = .pending ∧
    executeTripPlanner .hangs (some 50) =
      .rejectedAt 50 (.plain "Trip planning timeout after 50ms") ∧
    ∀ (g : GraphBehavior) (t : Nat),
      isTimeoutErrorOutcome (executeTripPlanner g (some (t + 1))) = false := by
  refine ⟨rfl, rfl, fun g t => ?_⟩
  rcases g with ⟨ms, r⟩ | _
  · rcases r with e | s
    · rfl
    · by_cases h : ms < t + 1 <;>
        simp [executeTripPlanner, isTimeoutErrorOutcome, h]
  · rfl

/-- Claim C3 (counterexample). On a state with an empty POI list and no
prior errors, the route-planning step does append an error of its own,
refuting the claim that no route-planning error is recorded. -/
theorem c3_empty_poi_counterexample :
    ¬ (planRoutes renvStub stateEmptyPois).errors = stateEmptyPois.errors := by
  decide

/-- Claim C3 (amended). When the route-planning step runs with an empty
`pointsOfInterest` list, it neither raises nor touches `dailyItinerary` or
`routeInformation` (both stay at their empty defaults), but it appends the
single route-planning error
`Route planning failed: No POIs available for route planning` to `errors`. -/
theorem c3_empty_poi_degradation (env : RouteEnv) (s : TripState)
    (h : s.pointsOfInterest = []) :
    planRoutes env s =
      { errors := s.errors ++
          ["Route planning failed: No POIs available for route planning"] } := by
  unfold planRoutes
  rw [if_pos h]

/-- Claim C3 witness: the amended statement at the concrete empty-POI
state. -/
theorem c3_empty_poi_degradation_witness :
    planRoutes renvStub stateEmptyPois =
      { errors := stateEmptyPois.errors ++
          ["Route planning failed: No POIs available for route planning"] } :=
  c3_empty_poi_degradation renvStub stateEmptyPois rfl

/-- Claim C4 (code_bug evidence). The leg loop of `planDailyRoutes` runs
`i` up to `dayPois.length - 1` inclusive while reading `dayPois[i + 1]`, so
its final iteration dereferences `undefined`; the straight-line fallback in
the catch block dereferences it again, so for every routing collaborator —
even one that succeeds on every leg — a day holding a single POI aborts the
whole step with a `GoogleMapsError`, which `planRoutes` then records as a
step-level `Route planning failed` entry instead of processing the day's
legs. -/
theorem c4_leg_loop_overrun (env : RouteEnv) :
    planDailyRoutes env [poiA] (some 0) (some 86400000) =
      .error (.googleMaps ("Route planning failed: " ++ phantomLegMessage)) ∧
    (planRoutes env stateC4).errors =
      ["Route planning failed: Route planning failed: " ++ phantomLegMessage] := by
  exact ⟨rfl, rfl⟩

/-- Claim C8. Merging any step's returned update into the state via the
annotation reducers concatenates the returned `errors` list onto the
existing one, so the previous `errors` list is always a prefix of the new
one: updates append and never remove or replace recorded errors. -/
theorem c8_errors_monotonic (s : TripState) (u : NodeUpdate) :
    (applyUpdate s u).errors = s.errors ++ u.errors ∧
    s.errors <+: (applyUpdate s u).errors :=
  ⟨rfl, u.errors, rfl⟩

/-- Claim C10 (counterexample). With the explicitly supplied timeout value
`0` — which JavaScript `if (timeout)` treats as absent — the wrapper takes
the direct-await branch, so a graph rejection is propagated to the caller
rather than being swallowed until the timer fires. -/
theorem c10_zero_timeout_counterexample :
    executeTripPlanner
      (.settles 3 (.error (.validation "Input validation failed: Destination is required")))
      (some 0) =
      .rejectedAt 3 (.validation "Input validation failed: Destination is required") :=
  rfl

/-- Claim C10 (amended). For every explicitly supplied nonzero timeout `t`,
a rejection of the underlying graph invocation is never propagated: the
returned promise stays unsettled until `t` milliseconds elapse and then
rejects with the plain timeout `Error`. -/
theorem c10_graph_rejection_swallowed (t : Nat) (ht : t ≠ 0) (ms : Nat) (e : JsError) :
    executeTripPlanner (.settles ms (.error e)) (some t) =
      .rejectedAt t (.plain ("Trip planning timeout after " ++ toString t ++ "ms")) := by
  cases t with
  | zero => exact absurd rfl ht
  | succ n => rfl

/-- Claim C10 witness: the amended statement for timeout 50 and a graph
that rejects with a `GoogleMapsError` after 3 ms. -/
theorem c10_graph_rejection_swallowed_witness :
    executeTripPlanner (.settles 3 (.error (.googleMaps "boom"))) (some 50) =
      .rejectedAt 50 (.plain ("Trip planning timeout after " ++ toString 50 ++ "ms")) :=
  c10_graph_rejection_swallowed 50 (by decide) 3 (.googleMaps "boom")

/-- Claim C1. On any input violating at least one validation rule, the
graph invocation rejects with a `ValidationError` whose message is the
semicolon-joined list of all violated rules (behind the fixed
`Input validation failed: ` prefix), no collaborator is called, and an
`executeTripPlanner` call without a timeout propagates exactly that
rejection. -/
theorem c1_validation_preempts (clock : Clock) (env : Env) (input : PlannerInput)
    (h : validationViolations clock (initState clock input) ≠ []) :
    invokeGraph clock env input =
      (.error (.validation ("Input validation failed: " ++
        String.intercalate "; " (validationViolations clock (initState clock input)))),
       noCalls) ∧
    ∀ ms : Nat, executeTripPlannerOn clock env input ms none =
      .rejectedAt ms (.validation ("Input validation failed: " ++
        String.intercalate "; " (validationViolations clock (initState clock input)))) := by
  have hv : validateInput clock (initState clock input) =
      .error (.validation ("Input validation failed: " ++
        String.intercalate "; " (validationViolations clock (initState clock input)))) := by
    unfold validateInput
    simp [h]
  have hg : invokeGraph clock env input =
      (.error (.validation ("Input validation failed: " ++
        String.intercalate "; " (validationViolations clock (initState clock input)))),
       noCalls) := by
    unfold invokeGraph
    dsimp only
    rw [hv]
  refine ⟨hg, fun ms => ?_⟩
  unfold executeTripPlannerOn
  rw [hg]
  rfl

/-- Claim C1 witness: the malformed input with blank destination, missing
start date and zero budget. -/
theorem c1_validation_preempts_witness :
    invokeGraph clock0 envStub inputBad =
      (.error (.validation ("Input validation failed: " ++
        String.intercalate "; " (validationViolations clock0 (initState clock0 inputBad)))),
       noCalls) ∧
    ∀ ms : Nat, executeTripPlannerOn clock0 envStub inputBad ms none =
      .rejectedAt ms (.validation ("Input validation failed: " ++
        String.intercalate "; " (validationViolations clock0 (initState clock0 inputBad)))) :=
  c1_validation_preempts clock0 envStub inputBad (by decide)

/-- Claim C5. Whenever validation succeeds, both dates were present, the
returned update carries
`daysCount = ceil((endDate - startDate) / 1 day)`, the merged state holds
that value, and it lies in `[1, 365]`. -/
theorem c5_days_count_invariant (clock : Clock) (s : TripState) (u : NodeUpdate)
    (h : validateInput clock s = .ok u) :
    ∃ a b, s.startDate = some a ∧ s.endDate = some b ∧
      u.daysCount = some (ceilDiv (b - a) 86400000) ∧
      (applyUpdate s u).daysCount = ceilDiv (b - a) 86400000 ∧
      1 ≤ ceilDiv (b - a) 86400000 ∧ ceilDiv (b - a) 86400000 ≤ 365 := by
  obtain ⟨hu, hviol⟩ := validateInput_ok_shape h
  unfold validationViolations at hviol
  simp only [List.append_eq_nil] at hviol
  obtain ⟨⟨⟨⟨⟨-, h2⟩, h3⟩, -⟩, -⟩, h6⟩ := hviol
  have hsn : s.startDate ≠ none := by
    intro hs; rw [hs] at h2; simp at h2
  have hen : s.endDate ≠ none := by
    intro hs; rw [hs] at h3; simp at h3
  obtain ⟨a, hsd⟩ := Option.ne_none_iff_exists.mp hsn
  obtain ⟨b, hed⟩ := Option.ne_none_iff_exists.mp hen
  rw [← hsd, ← hed] at h6
  dsimp only at h6
  obtain ⟨h61, h62⟩ := List.append_eq_nil.mp h6
  refine ⟨a, b, hsd.symm, hed.symm, ?_, ?_, ?_, ?_⟩
  · rw [hu]; simp [daysCountCalc, ← hsd, ← hed]
  · rw [hu]; simp [applyUpdate, daysCountCalc, ← hsd, ← hed]
  · by_cases hd : ceilDiv (b - a) 86400000 < 1
    · rw [if_pos hd] at h61; simp at h61
    · exact not_lt.mp hd
  · by_cases hd : 365 < ceilDiv (b - a) 86400000
    · rw [if_pos hd] at h62; simp at h62
    · exact not_lt.mp hd

/-- Claim C5 witness: a valid one-week Paris input yields `daysCount = 7`,
inside `[1, 365]`. -/
theorem c5_days_count_invariant_witness :
    ∃ a b, stateEmptyPois.startDate = some a ∧ stateEmptyPois.endDate = some b ∧
      (({ daysCount := some 7 } : NodeUpdate)).daysCount =
        some (ceilDiv (b - a) 86400000) ∧
      (applyUpdate stateEmptyPois { daysCount := some 7 }).daysCount =
        ceilDiv (b - a) 86400000 ∧
      1 ≤ ceilDiv (b - a) 86400000 ∧ ceilDiv (b - a) 86400000 ≤ 365 :=
  c5_days_count_invariant clock0 stateEmptyPois { daysCount := some 7 } (by decide)

/-- Claim C6. Whenever the accommodation step runs on a state with both
dates present, the lodging collaborator receives exactly one query, with
`minPrice = 0` and `maxPrice = floor(budgetUsd / daysCount)`. -/
theorem c6_accommodation_price_band (env : Env) (s : TripState) (sd ed : Int)
    (hsd : s.startDate = some sd) (hed : s.endDate = some ed) :
    (searchAccommodation env s).2 =
      [searchAirbnbQuery s.destination (msToIsoDate sd) (msToIsoDate ed)
        s.budgetUsd s.daysCount] ∧
    ∀ q ∈ (searchAccommodation env s).2,
      q.minPrice = 0 ∧ q.maxPrice = ⌊s.budgetUsd / (s.daysCount : ℚ)⌋ := by
  have h2 : (searchAccommodation env s).2 =
      [searchAirbnbQuery s.destination (msToIsoDate sd) (msToIsoDate ed)
        s.budgetUsd s.daysCount] := by
    unfold searchAccommodation
    rw [hsd, hed]
    dsimp only
    split <;> rfl
  refine ⟨h2, fun q hq => ?_⟩
  rw [h2] at hq
  simp only [List.mem_singleton] at hq
  subst hq
  exact ⟨rfl, rfl⟩

/-- Claim C6 witness: for budget 1000 and ten days the collaborator
receives `maxPrice = 100` and `minPrice = 0`. -/
theorem c6_accommodation_price_band_witness :
    ((searchAccommodation envStub stateC6).2 =
      [searchAirbnbQuery stateC6.destination (msToIsoDate 0) (msToIsoDate 864000000)
        stateC6.budgetUsd stateC6.daysCount]) ∧
    (∀ q ∈ (searchAccommodation envStub stateC6).2,
      q.minPrice = 0 ∧ q.maxPrice = ⌊stateC6.budgetUsd / (stateC6.daysCount : ℚ)⌋) ∧
    (searchAirbnbQuery stateC6.destination (msToIsoDate 0) (msToIsoDate 864000000)
      stateC6.budgetUsd stateC6.daysCount).maxPrice = 100 := by
  have h := c6_accommodation_price_band envStub stateC6 0 864000000 rfl rfl
  refine ⟨h.1, h.2, ?_⟩
  show (⌊(1000 : ℚ) / ((10 : Int) : ℚ)⌋ = 100)
  norm_num

/-- Claim C9. The distance and duration formatters are pure functions
satisfying the stated rendering rules: seconds under 60 render as
`N seconds`, under 3600 as rounded `N minutes`, otherwise as `Hh Mm` with
the minutes omitted when they round to zero and `hour` pluralized; meters
under 1000 render as `N m`, otherwise one-decimal `X.X km`; and the six
quoted example values hold. -/
theorem c9_formatting_rules :
    (∀ q : ℚ, 0 ≤ q → q < 60 →
      formatDuration q = toString (jsRound q) ++ " seconds") ∧
    (∀ q : ℚ, 60 ≤ q → q < 3600 →
      formatDuration q = toString (jsRound (q / 60)) ++ " minutes") ∧
    (∀ q : ℚ, 3600 ≤ q →
      formatDuration q =
        (if jsRound (jsMod q 3600 / 60) = 0 then
          toString ⌊q / 3600⌋ ++ " hour" ++ (if 1 < ⌊q / 3600⌋ then "s" else "")
        else
          toString ⌊q / 3600⌋ ++ "h " ++ toString (jsRound (jsMod q 3600 / 60)) ++ "m")) ∧
    (∀ q : ℚ, 0 ≤ q → q < 1000 →
      formatDistance q = toString (jsRound q) ++ " m") ∧
    (∀ q : ℚ, 1000 ≤ q → formatDistance q = fixed1 (q / 1000) ++ " km") ∧
    formatDistance 500 = "500 m" ∧ formatDistance 1500 = "1.5 km" ∧
    formatDuration 30 = "30 seconds" ∧ formatDuration 150 = "3 minutes" ∧
    formatDuration 5400 = "1h 30m" ∧ formatDuration 3600 = "1 hour" := by
  refine ⟨?_, ?_, ?_, ?_, ?_, ?_, ?_, ?_, ?_, ?_, ?_⟩
  · intro q _ h
    unfold formatDuration
    rw [if_pos h]
  · intro q h1 h2
    unfold formatDuration
    rw [if_neg (not_lt.mpr h1), if_pos h2]
  · intro q h1
    unfold formatDuration
    rw [if_neg (not_lt.mpr (le_trans (by norm_num) h1)),
      if_neg (not_lt.mpr h1)]
  · intro q _ h
    unfold formatDistance
    rw [if_pos h]
  · intro q h
    unfold formatDistance
    rw [if_neg (not_lt.mpr h)]
  · unfold formatDistance jsRound; norm_num; rfl
  · unfold formatDistance fixed1 jsRound; norm_num; rfl
  · unfold formatDuration jsRound; norm_num; rfl
  · unfold formatDuration jsRound; norm_num; rfl
  · unfold formatDuration jsMod jsRound; norm_num; rfl
  · unfold formatDuration jsMod jsRound; norm_num; rfl

/-- Claim C9 witness: the branch rules applied at 45 s, 2520 s, 250 m and
2500 m. -/
theorem c9_formatting_rules_witness :
    formatDuration 45 = toString (jsRound 45) ++ " seconds" ∧
    formatDuration 2520 = toString (jsRound ((2520 : ℚ) / 60)) ++ " minutes" ∧
    formatDistance 250 = toString (jsRound 250) ++ " m" ∧
    formatDistance 2500 = fixed1 ((2500 : ℚ) / 1000) ++ " km" := by
  have h := c9_formatting_rules
  exact ⟨h.1 45 (by decide) (by decide), h.2.1 2520 (by decide) (by decide),
    h.2.2.2.1 250 (by decide) (by decide), h.2.2.2.2.1 2500 (by decide)⟩

/-- Claim C7. In any graph run whose final state lacks the origin or the
destination coordinates (geocoding absent or failed) and whose input did
not pre-set a transportation mode, the transport-mode collaborator is
called zero times and `transportationMode` is absent in the final state;
the skip is the `routeAfterGeocoding` routing decision, and the step itself
returns an empty update when entered without both coordinate pairs. -/
theorem c7_transport_mode_skip (clock : Clock) (env : Env) (input : PlannerInput)
    (s : TripState) (c : Calls)
    (hrun : invokeGraph clock env input = (.ok s, c))
    (hmode : input.transportationMode = none)
    (habs : s.originCoordinates = none ∨ s.destinationCoordinates = none) :
    (c.transport = 0 ∧ s.transportationMode = none) ∧
    ∀ s' : TripState, s'.originCoordinates = none ∨ s'.destinationCoordinates = none →
      determineTransportationMode env s' = ({}, 0) := by
  have hstep : ∀ s' : TripState,
      s'.originCoordinates = none ∨ s'.destinationCoordinates = none →
      determineTransportationMode env s' = ({}, 0) := by
    intro s' h'
    unfold determineTransportationMode
    rcases h' with h' | h'
    · rw [h']
    · cases ho : s'.originCoordinates with
      | none => rfl
      | some oc => rw [h']
  refine ⟨?_, hstep⟩
  have hvmode : ∀ vUpd, validateInput clock (initState clock input) = .ok vUpd →
      vUpd.transportationMode = none := by
    intro vUpd hval
    rw [(validateInput_ok_shape hval).1]
  unfold invokeGraph at hrun
  dsimp only at hrun
  cases hval : validateInput clock (initState clock input) with
  | error e =>
    rw [hval] at hrun
    simp at hrun
  | ok vUpd =>
    rw [hval] at hrun
    dsimp only at hrun
    set s1 := applyUpdate (initState clock input) vUpd with hs1
    set s2 := applyUpdate (applyUpdate (applyUpdate s1 (geocodeLocations env s1).1)
      (discoverInterestPoints env s1).1) (searchAccommodation env s1).1 with hs2
    by_cases hroute : routeAfterGeocoding s2 = true
    · rw [if_pos hroute] at hrun
      simp only [Prod.mk.injEq, Except.ok.injEq] at hrun
      obtain ⟨hseq, -⟩ := hrun
      subst hseq
      rw [applyUpdate_originCoordinates (determineTransportationMode_coords env s2).1,
        applyUpdate_destinationCoordinates (determineTransportationMode_coords env s2).2]
        at habs
      unfold routeAfterGeocoding at hroute
      simp only [Bool.and_eq_true, Option.isSome_iff_ne_none] at hroute
      rcases habs with habs | habs
      · exact absurd habs hroute.1
      · exact absurd habs hroute.2
    · rw [if_neg hroute] at hrun
      simp only [Prod.mk.injEq, Except.ok.injEq] at hrun
      obtain ⟨hseq, hceq⟩ := hrun
      subst hseq
      subst hceq
      refine ⟨rfl, ?_⟩
      rw [hs2,
        applyUpdate_transportationMode (searchAccommodation_transportationMode env s1),
        applyUpdate_transportationMode (discoverInterestPoints_transportationMode env s1),
        applyUpdate_transportationMode (geocodeLocations_transportationMode env s1),
        hs1, applyUpdate_transportationMode (hvmode vUpd hval)]
      exact hmode

/-- Claim C7 witness: the no-origin Paris run under failing collaborators
reaches the final state with no origin coordinates, zero transport-mode
calls and no transportation mode. -/
theorem c7_transport_mode_skip_witness :
    ((({ geocode := 1, poi := 1, transport := 0, lodging := 1 } : Calls)).transport = 0 ∧
     (({ destination := "Paris, France", origin := none, startDate := some 0
         endDate := some 604800000, budgetUsd := 2000, daysCount := 7
         errors := ["Failed to geocode destination \x22Paris, France\x22: unavailable",
           "POI Discovery failed: unavailable",
           "Accommodation search failed: unavailable"]
         startTime := 1000 } : TripState)).transportationMode = none) ∧
    (∀ s' : TripState,
      s'.originCoordinates = none ∨ s'.destinationCoordinates = none →
      determineTransportationMode envStub s' = ({}, 0)) :=
  c7_transport_mode_skip clock0 envStub inputC7
    { destination := "Paris, France", origin := none, startDate := some 0
      endDate := some 604800000, budgetUsd := 2000, daysCount := 7
      errors := ["Failed to geocode destination \x22Paris, France\x22: unavailable",
        "POI Discovery failed: unavailable",
        "Accommodation search failed: unavailable"]
      startTime := 1000 }
    { geocode := 1, poi := 1, transport := 0, lodging := 1 }
    (by decide) rfl (.inl rfl)

end TripAi
